import Mathlib

/-!
Shallow embedding of `src/notifier.py` (PFigs/sms-pusher): a sequential
pipeline that loads contacts from a spreadsheet, pushes one SMS per contact
through the Nexmo provider, and optionally sends confirmation emails over
SMTP.  Every definition below is translated from the Python source; Python
exceptions are modelled as explicit error values, and Python attributes that
may be absent on an object are modelled with `Option`.
-/

namespace SmsPusher

/-- One entry of the `messages` list inside a Nexmo provider response
(`response['messages'][k]`), carrying the provider status code
(0 = accepted) and a message id. -/
structure NexmoMessage where
  status : Nat
  messageId : String
deriving Repr, DecidableEq

/-- The raw provider response attached to a client by `push_sms`
(`client.sms = response`): a dict whose `messages` key holds a list of
per-message results. -/
structure NexmoResponse where
  messages : List NexmoMessage
deriving Repr, DecidableEq

/-- The `Client` object of `notifier.py` (lines 182-205).  The `sms`
attribute is NOT set by the constructor: it only comes into existence when
`push_sms` assigns `client.sms = response`.  We model the attribute slot as
`Option (Option NexmoResponse)`:
`none` means the attribute is absent (reading it raises `AttributeError`),
`some none` models `client.sms = None`, and `some (some r)` models an
attached provider response. -/
structure Client where
  firstname : String
  surname : String
  phone : String
  email : Option String
  sms : Option (Option NexmoResponse)
deriving Repr, DecidableEq

/-- `Client.__init__(firstname, surname, phone, email=None)`: stores the
four fields and never creates an `sms` attribute. -/
def Client.init (firstname surname phone : String)
    (email : Option String := none) : Client :=
  { firstname := firstname, surname := surname, phone := phone,
    email := email, sms := none }

/-- The payload of one `self.nexmo.send_message({...})` call made by
`push_sms` (lines 61-63). -/
structure SmsCall where
  fromField : String
  toField : String
  text : String
deriving Repr, DecidableEq

/-- The loop body of `Notify.push_sms`: for each client, in list order, one
provider call with `from = self.sender`, `to = '{0}'.format(client.phone)`
(the stored phone string, verbatim) and `text = content`, after which the
provider response is attached as `client.sms`.  The `provider` argument is
the oracle giving the response to the k-th outbound call. -/
def pushSmsGo (sender content : String) (provider : Nat → NexmoResponse) :
    Nat → List Client → List SmsCall × List Client
  | _, [] => ([], [])
  | k, c :: cs =>
      let call : SmsCall := ⟨sender, c.phone, content⟩
      let resp := provider k
      let rest := pushSmsGo sender content provider (k + 1) cs
      (call :: rest.1, { c with sms := some (some resp) } :: rest.2)

/-- `Notify.push_sms(content)` (lines 48-64): returns immediately when the
client list is empty (`if not self.clients: return`), otherwise runs the
send loop.  Result: the list of provider calls made, in order, and the
updated client list. -/
def pushSms (sender content : String) (provider : Nat → NexmoResponse)
    (clients : List Client) : List SmsCall × List Client :=
  if clients.isEmpty then ([], clients)
  else pushSmsGo sender content provider 0 clients

/-- `Notify.build_release_content(title, body)` (lines 67-78):
`'Your password for {0} is {1}'.format(title, body)`. -/
def build_release_content (title body : String) : String :=
  "Your password for " ++ title ++ " is " ++ body

/-- `Notify.build_simple_sms(content)` (lines 82-90):
`'{0}'.format(content)`, the identity on strings. -/
def build_simple_sms (content : String) : String :=
  content

/-- Helper: the calls produced by the `push_sms` loop are exactly one per
client, in order, with the stored phone as the `to` field. -/
theorem pushSmsGo_calls (sender content : String)
    (provider : Nat → NexmoResponse) (k : Nat) (clients : List Client) :
    (pushSmsGo sender content provider k clients).1
      = clients.map (fun c => (⟨sender, c.phone, content⟩ : SmsCall)) := by
  induction clients generalizing k with
  | nil => rfl
  | cons c cs ih => simp [pushSmsGo, ih]

/-- The exceptions that can escape `Notify.send_email_confirmation`
(lines 93-139).
`attrSms`: `AttributeError` when `client.sms` is read on a client whose
`sms` attribute was never created (the `Client` constructor does not set it).
`attrName`: `AttributeError` inside the skip branch — the skip message
formats `client.name`, an attribute the `Client` class never defines.
`indexStatus`: `IndexError` when `client.sms['messages'][0]` is read from a
response whose `messages` list is empty.
`toHeader`: `ValueError` from `msg['To'] = ...` — `EmailMessage` under the
default policy admits at most one `To` header, and the single `msg` object
is reused across the loop without deleting the previous header.
`sendFail`: an `smtplib` exception raised by `server.send_message(msg)`. -/
inductive ConfErr
  | attrSms
  | attrName
  | indexStatus
  | toHeader
  | sendFail
deriving Repr, DecidableEq

/-- One message accepted by `server.send_message(msg)`: the `To` header
value and the body set by `msg.set_content(body)`. -/
structure SentMail where
  toAddr : Option String
  body : String
deriving Repr, DecidableEq

/-- Outcome of one run of `send_email_confirmation`: the messages the SMTP
server accepted (in order), whether `server.quit()` was reached, and the
exception (if any) that escaped the method. -/
structure ConfResult where
  sends : List SentMail
  closed : Bool
  err : Option ConfErr
deriving Repr, DecidableEq

/-- The `for client in self.clients` loop of `send_email_confirmation`
(lines 123-137), with the mutable state made explicit: `toCount` is the
number of `To` headers already stored in the shared `msg` object, and `k`
indexes the send attempts for the `sendOk` oracle (whether the k-th
`server.send_message` call succeeds).  Each loop body step mirrors the
source order: read `client.sms` (AttributeError if the attribute is
absent); if it is `None`, print a skip message — which itself raises
`AttributeError`, because it formats the nonexistent `client.name`; pick
the body from `client.sms['messages'][0]['status']`; assign `msg['To']`
(ValueError if a `To` header already exists); send. -/
def confLoop (inSuccess inError : String) (sendOk : Nat → Bool) :
    Nat → Nat → List Client → List SentMail × Option ConfErr
  | _, _, [] => ([], none)
  | toCount, k, c :: cs =>
    match c.sms with
    | none => ([], some ConfErr.attrSms)
    | some none => ([], some ConfErr.attrName)
    | some (some resp) =>
      match resp.messages with
      | [] => ([], some ConfErr.indexStatus)
      | m :: _ =>
        let body := if m.status = 0 then inSuccess else inError
        match toCount with
        | Nat.succ _ => ([], some ConfErr.toHeader)
        | 0 =>
          if sendOk k then
            let rest := confLoop inSuccess inError sendOk 1 (k + 1) cs
            ((⟨c.email, body⟩ : SentMail) :: rest.1, rest.2)
          else ([], some ConfErr.sendFail)

/-- The body of `send_email_confirmation` after the SMTP session has been
opened, authenticated and upgraded with STARTTLS (lines 117-120, assumed to
succeed): the `if self.clients:` guard around the loop. -/
def runConfirmation (inSuccess inError : String) (sendOk : Nat → Bool)
    (clients : List Client) : List SentMail × Option ConfErr :=
  if clients.isEmpty then ([], none)
  else confLoop inSuccess inError sendOk 0 0 clients

/-- `Notify.send_email_confirmation(subject, in_success, in_error)`
(lines 93-139).  `server.quit()` (line 139) stands at the end of the
method, with no `try`/`finally` around the loop, so it runs exactly when
the loop raised no exception; any exception propagates with the session
still open. -/
def send_email_confirmation (inSuccess inError : String)
    (sendOk : Nat → Bool) (clients : List Client) : ConfResult :=
  match runConfirmation inSuccess inError sendOk clients with
  | (sends, none) => ⟨sends, true, none⟩
  | (sends, some e) => ⟨sends, false, some e⟩

/-- A parsed configuration file: a finite map from (section, key) pairs to
string values, as read by `configparser.ConfigParser`. -/
def Config := List ((String × String) × String)

/-- `config.get(section, key)` with both positional arguments: returns the
stored value, or fails (`NoSectionError`/`NoOptionError`, both modelled as
`none`) when the pair is absent. -/
def configGet (cfg : Config) (sect key : String) : Option String :=
  (cfg.find? (fun entry => entry.1.1 = sect ∧ entry.1.2 = key)).map
    (fun entry => entry.2)

/-- `config.get(arg)` with a SINGLE positional argument, as written on
lines 265, 270 and 275 of `notifier.py`: `ConfigParser.get(self, section,
option, ...)` requires both `section` and `option`, so the call raises
`TypeError` before any lookup happens, whatever the configuration holds.
Modelled as always failing. -/
def configGetOneArg (_cfg : Config) (_arg : String) : Option String :=
  none

/-- The confirmation settings computed by the entry point. -/
structure ConfirmationSettings where
  subject : String
  inSuccess : String
  inError : String
deriving Repr, DecidableEq

/-- The `# email confirmation details` block of `__main__` (lines 263-277):
each of SUBJECT, SUCCESS and ERROR is read with `config.get(<key>)` inside
a bare `try`/`except` whose handler installs the default.  Because the
one-argument `get` always raises `TypeError`, every run takes the `except`
branch. -/
def parseConfirmationSettings (cfg : Config) : ConfirmationSettings :=
  { subject :=
      match configGetOneArg cfg "SUBJECT" with
      | some v => v
      | none => "Email notification",
    inSuccess :=
      match configGetOneArg cfg "SUCCESS" with
      | some v => v
      | none => "We have sent you an SMS, please check your phone!",
    inError :=
      match configGetOneArg cfg "ERROR" with
      | some v => v
      | none => "We could not reach you by SMS, please get in touch with us!" }

/-- A tabular spreadsheet as `pandas.read_excel` hands it to the parser: a
header row naming the columns, and one list of cell values per data row. -/
structure Sheet where
  header : List String
  rows : List (List String)
deriving Repr, DecidableEq

/-- `row[col]` on a pandas row: the cell in the position where the header
names `col`; a missing column raises `KeyError`, modelled as `none`. -/
def rowGet (header row : List String) (col : String) : Option String :=
  ((header.zip row).find? (fun cell => cell.1 = col)).map
    (fun cell => cell.2)

/-- The row loop of `Notify.parser` (lines 159-166): each row is turned
into `Client(row['Name'], row['Surname'], row['Phone'], row['Email'])`;
any failure inside the `try` — including the `KeyError` from a missing
`Email` column — is caught and re-raised as
`KeyError('Please check xlsx content')`, aborting the run. -/
def parseRows (header : List String) :
    List (List String) → Except String (List Client)
  | [] => .ok []
  | row :: rest =>
    match rowGet header row "Name", rowGet header row "Surname",
          rowGet header row "Phone", rowGet header row "Email" with
    | some n, some sn, some p, some em =>
      match parseRows header rest with
      | .ok clients => .ok (Client.init n sn p (some em) :: clients)
      | .error msg => .error msg
    | _, _, _, _ => .error "Please check xlsx content"

/-- `Notify.parser(filepath)` (lines 142-166), with the spreadsheet already
read: builds the client list row by row, in row order. -/
def parser (sheet : Sheet) : Except String (List Client) :=
  parseRows sheet.header sheet.rows

end SmsPusher

namespace SmsPusher

/-- Claim C1 (amended): `push_sms` makes exactly one provider send call per
loaded contact, in list order, and each call's `to` field equals the
contact's stored phone string verbatim — the code adds no `+` prefix. -/
theorem push_sms_calls_verbatim_phone (sender content : String)
    (provider : Nat → NexmoResponse) (clients : List Client) :
    (pushSms sender content provider clients).1
      = clients.map (fun c => (⟨sender, c.phone, content⟩ : SmsCall)) := by
  unfold pushSms
  rcases clients with _ | ⟨c, cs⟩
  · rfl
  · simp [pushSmsGo_calls]

/-- Claim C1 counterexample: for the stored phone `"351911"` the single
provider call carries `to = "351911"`, not `"+" ++ "351911"` as the claim
states. -/
theorem push_sms_plus_prefix_counterexample :
    (pushSms "S" "hi" (fun _ => ⟨[⟨0, "id0"⟩]⟩)
        [Client.init "Ana" "Silva" "351911"]).1.map SmsCall.toField
      ≠ ["+" ++ "351911"] := by
  decide

/-- Claim C7: if the contact list is empty, `push_sms` returns immediately
as a no-op — zero provider calls, the client list untouched, and (the model
being total, with every exception modelled as an explicit error value) no
exception is raised. -/
theorem push_sms_empty_noop (sender content : String)
    (provider : Nat → NexmoResponse) :
    pushSms sender content provider [] = ([], []) := by
  rfl

/-- Claim C8: the composer functions are pure functions of their string
arguments — `build_simple_sms` is the identity and `build_release_content`
is the literal sentence, with the concrete instance from the spec. -/
theorem compose_functions_pure (title body content : String) :
    build_simple_sms content = content ∧
    build_release_content title body
      = "Your password for " ++ title ++ " is " ++ body ∧
    build_release_content "Site" "1234" = "Your password for Site is 1234" := by
  refine ⟨rfl, rfl, ?_⟩
  rfl

/-- Claim C2 (code bug): even when the configuration defines SUBJECT,
SUCCESS and ERROR (here in the EMAIL section — the two-argument lookup
finds all three), the entry point still produces the three defaults,
because each key is read with a one-argument `config.get(...)` that raises
`TypeError`, which the bare `except` turns into the default. -/
theorem confirmation_settings_ignore_config :
    configGet
        [(("EMAIL", "SUBJECT"), "Custom subject"),
         (("EMAIL", "SUCCESS"), "Custom success"),
         (("EMAIL", "ERROR"), "Custom error")] "EMAIL" "SUBJECT"
      = some "Custom subject" ∧
    parseConfirmationSettings
        [(("EMAIL", "SUBJECT"), "Custom subject"),
         (("EMAIL", "SUCCESS"), "Custom success"),
         (("EMAIL", "ERROR"), "Custom error")]
      = ⟨"Email notification",
         "We have sent you an SMS, please check your phone!",
         "We could not reach you by SMS, please get in touch with us!"⟩ := by
  constructor <;> rfl

/-- Claim C3 (code bug): on a spreadsheet whose header has exactly the
columns Name, Surname and Phone — the format the parser's own docstring
documents — the parser raises `KeyError('Please check xlsx content')`
instead of producing the row's contact, because it unconditionally reads
`row['Email']`; with an Email column present, the same rows parse into
contact records in row order with each phone preserved verbatim. -/
theorem parser_fails_without_email_column :
    parser ⟨["Name", "Surname", "Phone"],
            [["Ana", "Silva", "351911"], ["Rui", "Costa", "351922"]]⟩
      = .error "Please check xlsx content" ∧
    parser ⟨["Name", "Surname", "Phone", "Email"],
            [["Ana", "Silva", "351911", "ana@mail.pt"],
             ["Rui", "Costa", "351922", "rui@mail.pt"]]⟩
      = .ok [Client.init "Ana" "Silva" "351911" (some "ana@mail.pt"),
             Client.init "Rui" "Costa" "351922" (some "rui@mail.pt")] := by
  constructor <;> rfl

/-- Claim C4 (amended): a failure while sending the email to one recipient
propagates out of `send_email_confirmation` as an exception, aborting the
confirmation phase — no further recipient is attempted (the sends list is
empty when the first send fails, whatever the remaining contacts are) and
the session is left unclosed; the failure is observable only as that
propagated exception, not as a logged-and-continue event. -/
theorem email_send_failure_aborts_remaining
    (f1 s1 p1 : String) (e1 : Option String) (m1 : NexmoMessage)
    (ms1 : List NexmoMessage) (rest : List Client) (s e : String) :
    send_email_confirmation s e (fun _ => false)
        (⟨f1, s1, p1, e1, some (some ⟨m1 :: ms1⟩)⟩ :: rest)
      = ⟨[], false, some ConfErr.sendFail⟩ := by
  simp [send_email_confirmation, runConfirmation, confLoop]

/-- Claim C4 counterexample: with two contacts that both carry a delivery
result, a send failure on the first recipient leaves the second recipient
unattempted — zero messages are accepted, refuting the claim that the
remaining recipients still receive their sends. -/
theorem email_send_failure_aborts_counterexample :
    (send_email_confirmation "ok" "bad" (fun _ => false)
        [⟨"Ana", "Silva", "351911", some "ana@mail.pt", some (some ⟨[⟨0, "idA"⟩]⟩)⟩,
         ⟨"Rui", "Costa", "351922", some "rui@mail.pt", some (some ⟨[⟨0, "idB"⟩]⟩)⟩]).sends
      = [] ∧
    (send_email_confirmation "ok" "bad" (fun _ => false)
        [⟨"Ana", "Silva", "351911", some "ana@mail.pt", some (some ⟨[⟨0, "idA"⟩]⟩)⟩,
         ⟨"Rui", "Costa", "351922", some "rui@mail.pt", some (some ⟨[⟨0, "idB"⟩]⟩)⟩]).err
      = some ConfErr.sendFail := by
  constructor <;> rfl

/-- Claim C5 (amended): the SMTP session is closed exactly on the
exception-free paths of `send_email_confirmation`; whenever any exception
escapes (AttributeError on the skip check, ValueError on the second `To`
assignment, a send failure, ...), `server.quit()` is never reached and the
session is left open. -/
theorem smtp_closed_iff_no_error (inSuccess inError : String)
    (sendOk : Nat → Bool) (clients : List Client) :
    (send_email_confirmation inSuccess inError sendOk clients).closed = true
      ↔ (send_email_confirmation inSuccess inError sendOk clients).err = none := by
  unfold send_email_confirmation
  split <;> simp_all

/-- Claim C5 counterexample: on the exit path where the single send fails,
the method ends with the SMTP session still open (`closed = false`),
refuting the claim that the session is closed on every exit path. -/
theorem smtp_session_left_open_counterexample :
    (send_email_confirmation "yes" "no" (fun _ => false)
        [⟨"Eva", "Melo", "351933", some "eva@mail.pt", some (some ⟨[⟨4, "idC"⟩]⟩)⟩]).closed
      = false := by
  rfl

/-- Claim C6 (amended): for the first contact carrying an attached delivery
result the chosen body is the success text exactly when the result status
equals 0 and the error text otherwise; but a contact whose send was never
attempted is NOT skipped with a message — its `sms` attribute does not
exist, so the skip check `client.sms is None` raises `AttributeError` and
aborts the phase. -/
theorem confirmation_body_choice
    (f sn p : String) (em : Option String) (st : Nat) (mid : String)
    (ms : List NexmoMessage) (f2 sn2 p2 : String) (em2 : Option String)
    (s e : String) :
    (send_email_confirmation s e (fun _ => true)
        [⟨f, sn, p, em, some (some ⟨⟨st, mid⟩ :: ms⟩)⟩]).sends
      = [⟨em, if st = 0 then s else e⟩] ∧
    (send_email_confirmation s e (fun _ => true)
        [⟨f, sn, p, em, some (some ⟨⟨st, mid⟩ :: ms⟩)⟩]).err = none ∧
    (send_email_confirmation s e (fun _ => true)
        [Client.init f2 sn2 p2 em2]).err = some ConfErr.attrSms := by
  refine ⟨?_, ?_, ?_⟩ <;>
    simp [send_email_confirmation, runConfirmation, confLoop, Client.init]

/-- Claim C6 counterexample: a freshly constructed contact with no
attempted send makes `send_email_confirmation` raise `AttributeError` at
the skip check — it is not skipped with a message, and nothing is sent. -/
theorem confirmation_skip_crashes_counterexample :
    (send_email_confirmation "yes" "no" (fun _ => true)
        [Client.init "Ines" "Dias" "351944" (some "ines@mail.pt")]).err
      = some ConfErr.attrSms ∧
    (send_email_confirmation "yes" "no" (fun _ => true)
        [Client.init "Ines" "Dias" "351944" (some "ines@mail.pt")]).sends
      = [] := by
  constructor <;> rfl

/-- Claim C9: with two contacts that both carry an attached delivery result
and get past the skip check, the first is emailed and the phase then fails
on the second with the `To`-header `ValueError`: the single `EmailMessage`
is reused across the loop and its `To` header admits at most one value. -/
theorem to_header_reassignment_fails
    (f1 s1 p1 f2 s2 p2 : String) (e1 e2 : Option String)
    (m1 m2 : NexmoMessage) (ms1 ms2 : List NexmoMessage)
    (rest : List Client) (s e : String) :
    (send_email_confirmation s e (fun _ => true)
        (⟨f1, s1, p1, e1, some (some ⟨m1 :: ms1⟩)⟩ ::
         ⟨f2, s2, p2, e2, some (some ⟨m2 :: ms2⟩)⟩ :: rest)).err
      = some ConfErr.toHeader ∧
    (send_email_confirmation s e (fun _ => true)
        (⟨f1, s1, p1, e1, some (some ⟨m1 :: ms1⟩)⟩ ::
         ⟨f2, s2, p2, e2, some (some ⟨m2 :: ms2⟩)⟩ :: rest)).sends.length
      = 1 := by
  constructor <;>
    simp [send_email_confirmation, runConfirmation, confLoop]

/-- Claim C10: the `Client` constructor never creates an `sms` attribute,
so a contact that never had a send attempted makes
`send_email_confirmation` raise `AttributeError` when the skip check reads
`client.sms` — instead of skipping that contact. -/
theorem missing_sms_attribute_raises
    (f sn p : String) (em : Option String) (rest : List Client)
    (s e : String) (sendOk : Nat → Bool) :
    (Client.init f sn p em).sms = none ∧
    send_email_confirmation s e sendOk (Client.init f sn p em :: rest)
      = ⟨[], false, some ConfErr.attrSms⟩ := by
  refine ⟨rfl, ?_⟩
  simp [send_email_confirmation, runConfirmation, confLoop, Client.init]

end SmsPusher
